import Mathlib

/-!
Shallow embedding of the honest-fetch library (src/index.ts): the result
classification of `safeFetch`, the method wrappers, and `safePromise`.
JavaScript runtime values are modelled by `JSVal`; a settled promise is a
`PromiseOutcome`; the external transport is a function from the assembled
request to an outcome.
-/

namespace HonestFetch

/-- A JavaScript runtime value, as far as the library inspects one: `null`
(also standing for `undefined` where the code conflates them), booleans,
numbers (modelled as integers; the library never does arithmetic), strings,
plain objects as field lists, and `Error` instances carrying a message. -/
inductive JSVal where
  | null : JSVal
  | bool : Bool → JSVal
  | num : Int → JSVal
  | str : String → JSVal
  | obj : List (String × JSVal) → JSVal
  | err : String → JSVal
deriving Repr

/-- JavaScript truthiness, restricted to the values of `JSVal`
(falsy: `null`, `false`, `0`, the empty string). -/
def truthy : JSVal → Bool
  | .null => false
  | .bool b => b
  | .num n => n != 0
  | .str s => s != ""
  | .obj _ => true
  | .err _ => true

/-- The `instanceof Error` test. -/
def isError : JSVal → Bool
  | .err _ => true
  | _ => false

/-- The `String(v)` coercion for the values of `JSVal`. -/
def jsToString : JSVal → String
  | .null => "null"
  | .bool b => if b then "true" else "false"
  | .num n => toString n
  | .str s => s
  | .obj _ => "[object Object]"
  | .err m => "Error: " ++ m

/-- `error instanceof Error ? error : new Error(String(error))`
(src/index.ts, the catch block of `safeFetch`). -/
def normalizeException (e : JSVal) : JSVal :=
  if isError e then e else .err (jsToString e)

/-- A settled outcome of an awaited promise: resolution with a value of `α`
or rejection with an arbitrary reason. -/
inductive PromiseOutcome (α : Type) where
  | resolved : α → PromiseOutcome α
  | rejected : JSVal → PromiseOutcome α
deriving Repr

/-- The response descriptor the transport resolves with: the `ok` flag, the
numeric status, and the outcome of `response.json()` (itself a promise that
may reject on a malformed body). -/
structure Response where
  ok : Bool
  status : Nat
  json : PromiseOutcome JSVal

/-- `APIProps` from src/index.ts: target url, optional headers, optional
body payload. -/
structure APIProps where
  url : String
  headers : Option (List (String × String)) := none
  body : Option JSVal := none

/-- The request configuration handed to the transport: url plus the
`RequestInit` fields `safeFetch` assembles. -/
structure FetchRequest where
  url : String
  method : String
  headers : List (String × String)
  body : Option JSVal
deriving Repr

/-- The request `safeFetch` (src/index.ts) builds:
`fetch(url, { method, headers: { ...headers }, body: body ? body : undefined })`.
Spreading an absent headers object yields the empty set; the body field is
sent exactly when the supplied payload is truthy. -/
def buildRequest (apiProps : APIProps) (method : String) : FetchRequest :=
  { url := apiProps.url
    method := method
    headers := apiProps.headers.getD []
    body :=
      match apiProps.body with
      | some b => if truthy b then some b else none
      | none => none }

/-- The double-quote character, kept as a named constant so escape tables
stay readable. -/
def quoteChar : Char := Char.ofNat 34

/-- The backslash character. -/
def backslashChar : Char := Char.ofNat 92

/-- One hexadecimal digit, lowercase, as produced by JSON escaping. -/
def hexDigitChar (n : Nat) : Char :=
  if n < 10 then Char.ofNat (48 + n) else Char.ofNat (87 + n)

/-- Four lowercase hexadecimal digits, for a JSON `\uXXXX` escape. -/
def hex4 (n : Nat) : List Char :=
  [hexDigitChar (n / 4096 % 16), hexDigitChar (n / 256 % 16),
   hexDigitChar (n / 16 % 16), hexDigitChar (n % 16)]

/-- The JSON escape of one character inside a string literal, following
`JSON.stringify`: quote, backslash, the named control escapes, `\uXXXX` for
the remaining control characters, and every other character verbatim. -/
def jsonEscapeChar (c : Char) : List Char :=
  if c = quoteChar then [backslashChar, quoteChar]
  else if c = backslashChar then [backslashChar, backslashChar]
  else if c.toNat = 8 then [backslashChar, 'b']
  else if c.toNat = 9 then [backslashChar, 't']
  else if c.toNat = 10 then [backslashChar, 'n']
  else if c.toNat = 12 then [backslashChar, 'f']
  else if c.toNat = 13 then [backslashChar, 'r']
  else if c.toNat < 32 then [backslashChar, 'u'] ++ hex4 c.toNat
  else [c]

/-- A JSON string literal: the escaped characters between double quotes. -/
def jsonQuote (s : String) : String :=
  String.mk ([quoteChar] ++
    s.toList.foldr (fun c acc => jsonEscapeChar c ++ acc) [] ++ [quoteChar])

mutual

/-- `JSON.stringify` over `JSVal`: null, booleans and numbers print
themselves, strings are quoted and escaped, an `Error` instance has no
enumerable own properties and serializes to the empty object, and a plain
object serializes its fields in order. -/
def jsonStringify : JSVal → String
  | .null => "null"
  | .bool b => if b then "true" else "false"
  | .num n => toString n
  | .str s => jsonQuote s
  | .obj fields => "\x7b" ++ jsonStringifyFields fields ++ "\x7d"
  | .err _ => "\x7b\x7d"

/-- The comma-separated `key:value` entries of a serialized object. -/
def jsonStringifyFields : List (String × JSVal) → String
  | [] => ""
  | [(k, v)] => jsonQuote k ++ ":" ++ jsonStringify v
  | (k, v) :: rest =>
      jsonQuote k ++ ":" ++ jsonStringify v ++ "," ++ jsonStringifyFields rest

end

/-- Object-spread assignment of one key: an existing entry is overwritten in
place, a new key is appended. -/
def assignKey (m : List (String × String)) (k v : String) :
    List (String × String) :=
  if m.any (fun p => p.1 = k) then
    m.map (fun p => if p.1 = k then (k, v) else p)
  else m ++ [(k, v)]

/-- `{ ...base, ...upd }` for string maps: every entry of `upd` is assigned
over `base` in order. -/
def spreadList (base upd : List (String × String)) :
    List (String × String) :=
  upd.foldl (fun acc p => assignKey acc p.1 p.2) base

/-- The request the published dist revision builds (dist/index.js):
`fetch(url, { method, headers: { "Content-Type": "application/json",
...headers }, body: body ? JSON.stringify(body) : undefined, ...rest })`.
The default content type is spread first so caller headers override it; a
truthy body is serialized to a JSON string; a falsy or absent body sends no
body field. The open-ended `rest` forwarding is not modelled: no claim
touches it. -/
def buildRequestDist (apiProps : APIProps) (method : String) : FetchRequest :=
  { url := apiProps.url
    method := method
    headers := spreadList [("Content-Type", "application/json")]
      (apiProps.headers.getD [])
    body :=
      match apiProps.body with
      | some b => if truthy b then some (.str (jsonStringify b)) else none
      | none => none }

/-- The result record of `safeFetch`: the union
`Success | Failure | Exception` of src/index.ts, kept in its wire shape of
three nullable fields. -/
structure APIResult where
  data : JSVal
  error : JSVal
  exception : JSVal
deriving Repr

/-- The result record of `safePromise`: the union
`SuccessPromise | FailurePromise`, kept in its wire shape. -/
structure PromiseResult where
  data : JSVal
  error : JSVal
deriving Repr

/-- `safeFetch` from src/index.ts, over an explicit transport: build the
request; if the transport rejects, or `response.json()` rejects, catch and
return the Exception shape with the normalized error; otherwise classify on
`response.ok` into Failure or Success. The decode of the body happens
before the `ok` test, exactly as in the source. -/
def safeFetch (transport : FetchRequest → PromiseOutcome Response)
    (apiProps : APIProps) (method : String) : APIResult :=
  match transport (buildRequest apiProps method) with
  | .rejected e =>
      { data := .null, error := .null, exception := normalizeException e }
  | .resolved response =>
      match response.json with
      | .rejected e =>
          { data := .null, error := .null, exception := normalizeException e }
      | .resolved result =>
          if !response.ok then
            { data := .null, error := result, exception := .null }
          else
            { data := result, error := .null, exception := .null }

/-- `get` from src/index.ts: `return safeFetch(props, "GET")`. -/
def get (transport : FetchRequest → PromiseOutcome Response)
    (props : APIProps) : APIResult :=
  safeFetch transport props "GET"

/-- `post` from src/index.ts: `return safeFetch(props, "POST")`. -/
def post (transport : FetchRequest → PromiseOutcome Response)
    (props : APIProps) : APIResult :=
  safeFetch transport props "POST"

/-- `put` from src/index.ts: `return safeFetch(props, "PUT")`. -/
def put (transport : FetchRequest → PromiseOutcome Response)
    (props : APIProps) : APIResult :=
  safeFetch transport props "PUT"

/-- `patch` from src/index.ts: `return safeFetch(props, "PATCH")`. -/
def patch (transport : FetchRequest → PromiseOutcome Response)
    (props : APIProps) : APIResult :=
  safeFetch transport props "PATCH"

/-- `del` from src/index.ts: `return safeFetch(props, "DELETE")`. -/
def del (transport : FetchRequest → PromiseOutcome Response)
    (props : APIProps) : APIResult :=
  safeFetch transport props "DELETE"

/-- `safePromise` from src/index.ts: await the promise; on resolution return
`{ data: result, error: null }`; on rejection return
`{ data: null, error }` with the reason unchanged. -/
def safePromise (promise : PromiseOutcome JSVal) : PromiseResult :=
  match promise with
  | .resolved result => { data := result, error := .null }
  | .rejected e => { data := .null, error := e }

/-- The `null` test callers use to discriminate the result shapes. -/
def isNull : JSVal → Bool
  | .null => true
  | _ => false

/-- How many of the three fields of an `APIResult` are non-null. -/
def nonNullCount (r : APIResult) : Nat :=
  (if isNull r.data then 0 else 1) + (if isNull r.error then 0 else 1) +
    (if isNull r.exception then 0 else 1)

/-- How many of the two fields of a `PromiseResult` are non-null. -/
def nonNullCountPR (r : PromiseResult) : Nat :=
  (if isNull r.data then 0 else 1) + (if isNull r.error then 0 else 1)

/-- The decoded response body a `safeFetch` run sees, when both the
transport call and the body decode settle successfully; `none` on the
exception path. -/
def decodedBody (transport : FetchRequest → PromiseOutcome Response)
    (apiProps : APIProps) (method : String) : Option JSVal :=
  match transport (buildRequest apiProps method) with
  | .rejected _ => none
  | .resolved response =>
      match response.json with
      | .rejected _ => none
      | .resolved result => some result

/-- The value a settled promise carries: the resolved value or the
rejection reason. -/
def outcomePayload : PromiseOutcome JSVal → JSVal
  | .resolved v => v
  | .rejected e => e

/-- The Success shape of src/index.ts: `error` and `exception` null, the
payload type of `data` unconstrained. -/
def SuccessShape (r : APIResult) : Prop :=
  r.error = JSVal.null ∧ r.exception = JSVal.null

/-- The Failure shape of src/index.ts: `data` and `exception` null. -/
def FailureShape (r : APIResult) : Prop :=
  r.data = JSVal.null ∧ r.exception = JSVal.null

/-- The Exception shape of src/index.ts: `data` and `error` null and
`exception` an `Error` instance. -/
def ExceptionShape (r : APIResult) : Prop :=
  r.data = JSVal.null ∧ r.error = JSVal.null ∧ isError r.exception = true

/-- Normalization always yields an `Error` instance: a caught error value is
kept, anything else is wrapped. -/
theorem isError_normalizeException (e : JSVal) :
    isError (normalizeException e) = true := by
  cases e <;> simp [normalizeException, isError]

/-- A normalized exception is never null, so the Exception shape always has
its field populated. -/
theorem isNull_normalizeException (e : JSVal) :
    isNull (normalizeException e) = false := by
  cases e <;> simp [normalizeException, isError, isNull]

/-- The null value tests null. -/
theorem isNull_null : isNull JSVal.null = true := rfl

/-- A transport whose call resolves with the same response descriptor for
every request. -/
def constTransport (resp : Response) : FetchRequest → PromiseOutcome Response :=
  fun _ => .resolved resp

/-- A transport whose call rejects with the same reason for every request. -/
def rejectTransport (e : JSVal) : FetchRequest → PromiseOutcome Response :=
  fun _ => .rejected e

/-- Claim C1: for every input and every settled behaviour of the external
transport (resolving with any response descriptor or rejecting with any
value, the body decode itself resolving or rejecting), `safeFetch` returns
one of the three declared result shapes and `safePromise` one of its two;
both are total functions of the embedding, so no thrown value or rejection
ever reaches the caller. -/
theorem c1_total_containment
    (transport : FetchRequest → PromiseOutcome Response)
    (apiProps : APIProps) (method : String) (promise : PromiseOutcome JSVal) :
    (SuccessShape (safeFetch transport apiProps method) ∨
      FailureShape (safeFetch transport apiProps method) ∨
      ExceptionShape (safeFetch transport apiProps method)) ∧
    ((safePromise promise).error = JSVal.null ∨
      (safePromise promise).data = JSVal.null) := by
  constructor
  · cases hres : transport (buildRequest apiProps method) with
    | rejected e =>
        exact Or.inr (Or.inr (by
          simp [ExceptionShape, safeFetch, hres, isError_normalizeException]))
    | resolved resp =>
        cases hjson : resp.json with
        | rejected e =>
            exact Or.inr (Or.inr (by
              simp [ExceptionShape, safeFetch, hres, hjson,
                isError_normalizeException]))
        | resolved v =>
            cases hok : resp.ok with
            | false =>
                exact Or.inr (Or.inl (by
                  simp [FailureShape, safeFetch, hres, hjson, hok]))
            | true =>
                exact Or.inl (by
                  simp [SuccessShape, safeFetch, hres, hjson, hok])
  · cases promise with
    | resolved v => exact Or.inl rfl
    | rejected e => exact Or.inr rfl

/-- Claim C2: whenever the transport call resolves with an ok response whose
body decodes to `v`, `safeFetch` returns the Success record with `v` in
`data` and the other two fields null. -/
theorem c2_success_shape
    (transport : FetchRequest → PromiseOutcome Response)
    (apiProps : APIProps) (method : String) (resp : Response) (v : JSVal)
    (hres : transport (buildRequest apiProps method) = .resolved resp)
    (hjson : resp.json = .resolved v) (hok : resp.ok = true) :
    safeFetch transport apiProps method =
      { data := v, error := JSVal.null, exception := JSVal.null } := by
  simp [safeFetch, hres, hjson, hok]

/-- Witness for claim C2 at the shape of the test suite: an ok transport
with a decodable object body yields that body as `data`. -/
theorem c2_success_shape_witness :
    safeFetch
      (constTransport
        { ok := true, status := 200,
          json := .resolved (.obj [("message", .str "all good")]) })
      { url := "https://api.fake.com" } "GET" =
      { data := .obj [("message", .str "all good")], error := JSVal.null,
        exception := JSVal.null } :=
  c2_success_shape _ _ "GET" _ _ rfl rfl rfl

/-- Claim C3: whenever the transport call resolves with a non-ok response
whose body decodes to `v`, `safeFetch` returns the Failure record with `v`
in `error` and the other two fields null. -/
theorem c3_failure_shape
    (transport : FetchRequest → PromiseOutcome Response)
    (apiProps : APIProps) (method : String) (resp : Response) (v : JSVal)
    (hres : transport (buildRequest apiProps method) = .resolved resp)
    (hjson : resp.json = .resolved v) (hok : resp.ok = false) :
    safeFetch transport apiProps method =
      { data := JSVal.null, error := v, exception := JSVal.null } := by
  simp [safeFetch, hres, hjson, hok]

/-- Witness for claim C3 at the shape of the test suite: a 404 transport
with a decodable object body yields that body as `error`. -/
theorem c3_failure_shape_witness :
    safeFetch
      (constTransport
        { ok := false, status := 404,
          json := .resolved (.obj [("message", .str "not found")]) })
      { url := "https://api.fake.com" } "GET" =
      { data := JSVal.null, error := .obj [("message", .str "not found")],
        exception := JSVal.null } :=
  c3_failure_shape _ _ "GET" _ _ rfl rfl rfl

/-- Claim C4: whenever the transport call rejects, or the body decode
rejects, `safeFetch` returns the Exception record carrying the normalized
reason; normalization keeps an error value (and thus its message)
unchanged, and wraps any non-error reason into an error whose message is
its string form. -/
theorem c4_exception_normalization
    (transport : FetchRequest → PromiseOutcome Response)
    (apiProps : APIProps) (method : String) (e : JSVal)
    (h : transport (buildRequest apiProps method) = .rejected e ∨
      ∃ resp, transport (buildRequest apiProps method) = .resolved resp ∧
        resp.json = .rejected e) :
    safeFetch transport apiProps method =
      { data := JSVal.null, error := JSVal.null,
        exception := normalizeException e } ∧
    (∀ m, e = JSVal.err m → normalizeException e = JSVal.err m) ∧
    (isError e = false →
      normalizeException e = JSVal.err (jsToString e)) := by
  refine ⟨?_, ?_, ?_⟩
  · rcases h with h | ⟨resp, hres, hjson⟩
    · simp [safeFetch, h]
    · simp [safeFetch, hres, hjson]
  · intro m hm
    subst hm
    simp [normalizeException, isError]
  · intro hne
    simp [normalizeException, hne]

/-- Witness for claim C4: a transport rejecting with the plain string
`boom` produces the Exception record whose error has message `boom`. -/
theorem c4_exception_normalization_witness :
    safeFetch (rejectTransport (.str "boom")) { url := "https://api.fake.com" }
      "GET" =
      { data := JSVal.null, error := JSVal.null,
        exception := JSVal.err "boom" } := by
  have h := c4_exception_normalization (rejectTransport (.str "boom"))
    { url := "https://api.fake.com" } "GET" (.str "boom") (Or.inl rfl)
  exact h.1.trans (by rfl)

/-- Claim C5: `safePromise` places a resolved value into `data` and a
rejection reason into `error`, both unchanged and without any
normalization, the other field null. -/
theorem c5_safePromise_passthrough (v e : JSVal) :
    safePromise (.resolved v) = { data := v, error := JSVal.null } ∧
    safePromise (.rejected e) = { data := JSVal.null, error := e } :=
  ⟨rfl, rfl⟩

/-- Claim C6 counterexample: when the decoded body is the JSON value
`null`, an ok response makes `safeFetch` return a record with zero non-null
fields, and a promise resolving with `null` does the same for
`safePromise`; the claimed exactly-one-non-null invariant fails. -/
theorem c6_counterexample :
    nonNullCount
      (safeFetch
        (constTransport { ok := true, status := 200, json := .resolved JSVal.null })
        { url := "https://api.fake.com" } "GET") = 0 ∧
    nonNullCountPR (safePromise (.resolved JSVal.null)) = 0 :=
  ⟨rfl, rfl⟩

/-- Claim C6 as amended: every result of `safeFetch` has at most one
non-null field, exactly one whenever the decoded body is not the value
`null`, and zero whenever the decoded body is the value `null` (whatever
the ok flag); every result of `safePromise` has at most one non-null
field, exactly one whenever the resolved value or rejection reason is not
`null`, and zero whenever that payload is `null`. So the zero-non-null
case occurs exactly when the carried payload is itself null. -/
theorem c6_amended_discrimination
    (transport : FetchRequest → PromiseOutcome Response)
    (apiProps : APIProps) (method : String) (promise : PromiseOutcome JSVal) :
    nonNullCount (safeFetch transport apiProps method) ≤ 1 ∧
    nonNullCountPR (safePromise promise) ≤ 1 ∧
    (decodedBody transport apiProps method ≠ some JSVal.null →
      nonNullCount (safeFetch transport apiProps method) = 1) ∧
    (outcomePayload promise ≠ JSVal.null →
      nonNullCountPR (safePromise promise) = 1) ∧
    (decodedBody transport apiProps method = some JSVal.null →
      nonNullCount (safeFetch transport apiProps method) = 0) ∧
    (outcomePayload promise = JSVal.null →
      nonNullCountPR (safePromise promise) = 0) := by
  refine ⟨?_, ?_, ?_, ?_, ?_, ?_⟩
  · cases hres : transport (buildRequest apiProps method) with
    | rejected e =>
        simp [safeFetch, hres, nonNullCount, isNull_null, isNull_normalizeException]
    | resolved resp =>
        cases hjson : resp.json with
        | rejected e =>
            simp [safeFetch, hres, hjson, nonNullCount, isNull_null,
              isNull_normalizeException]
        | resolved v =>
            cases hok : resp.ok <;> cases hv : isNull v <;>
              simp [safeFetch, hres, hjson, hok, nonNullCount, isNull_null, hv]
  · cases promise with
    | resolved v =>
        cases hv : isNull v <;> simp [safePromise, nonNullCountPR, isNull_null, hv]
    | rejected e =>
        cases he : isNull e <;> simp [safePromise, nonNullCountPR, isNull_null, he]
  · intro hne
    cases hres : transport (buildRequest apiProps method) with
    | rejected e =>
        simp [safeFetch, hres, nonNullCount, isNull_null, isNull_normalizeException]
    | resolved resp =>
        cases hjson : resp.json with
        | rejected e =>
            simp [safeFetch, hres, hjson, nonNullCount, isNull_null,
              isNull_normalizeException]
        | resolved v =>
            have hv : isNull v = false := by
              cases v with
              | null =>
                  exact absurd (by simp [decodedBody, hres, hjson]) hne
              | bool b => rfl
              | num n => rfl
              | str s => rfl
              | obj fields => rfl
              | err m => rfl
            cases hok : resp.ok <;>
              simp [safeFetch, hres, hjson, hok, nonNullCount, isNull_null, hv]
  · intro hne
    cases promise with
    | resolved v =>
        have hv : isNull v = false := by
          cases v with
          | null => exact absurd (by simp [outcomePayload]) hne
          | bool b => rfl
          | num n => rfl
          | str s => rfl
          | obj fields => rfl
          | err m => rfl
        simp [safePromise, nonNullCountPR, isNull_null, hv]
    | rejected e =>
        have he : isNull e = false := by
          cases e with
          | null => exact absurd (by simp [outcomePayload]) hne
          | bool b => rfl
          | num n => rfl
          | str s => rfl
          | obj fields => rfl
          | err m => rfl
        simp [safePromise, nonNullCountPR, isNull_null, he]
  · intro h
    cases hres : transport (buildRequest apiProps method) with
    | rejected e => simp [decodedBody, hres] at h
    | resolved resp =>
        cases hjson : resp.json with
        | rejected e => simp [decodedBody, hres, hjson] at h
        | resolved v =>
            have hv : v = JSVal.null := by
              simpa [decodedBody, hres, hjson] using h
            subst hv
            cases hok : resp.ok <;>
              simp [safeFetch, hres, hjson, hok, nonNullCount, isNull_null]
  · intro h
    cases promise with
    | resolved v =>
        have hv : v = JSVal.null := by simpa [outcomePayload] using h
        subst hv
        simp [safePromise, nonNullCountPR, isNull_null]
    | rejected e =>
        have he : e = JSVal.null := by simpa [outcomePayload] using h
        subst he
        simp [safePromise, nonNullCountPR, isNull_null]

/-- Witness for the amended claim C6: with a non-null decoded body and a
non-null rejection reason, both results have exactly one non-null field;
with a null body on a non-ok response, and with a rejection reason of
null, both results have zero non-null fields. -/
theorem c6_amended_discrimination_witness :
    nonNullCount
      (safeFetch
        (constTransport
          { ok := true, status := 200, json := .resolved (.str "hi") })
        { url := "https://api.fake.com" } "GET") = 1 ∧
    nonNullCountPR (safePromise (.rejected (.str "nope"))) = 1 ∧
    nonNullCount
      (safeFetch
        (constTransport
          { ok := false, status := 404, json := .resolved JSVal.null })
        { url := "https://api.fake.com" } "GET") = 0 ∧
    nonNullCountPR (safePromise (.rejected JSVal.null)) = 0 := by
  have h1 := c6_amended_discrimination
    (constTransport { ok := true, status := 200, json := .resolved (.str "hi") })
    { url := "https://api.fake.com" } "GET" (.rejected (.str "nope"))
  have h2 := c6_amended_discrimination
    (constTransport { ok := false, status := 404, json := .resolved JSVal.null })
    { url := "https://api.fake.com" } "GET" (.rejected JSVal.null)
  exact ⟨h1.2.2.1 (by simp [decodedBody, constTransport]),
    h1.2.2.2.1 (by simp [outcomePayload]),
    h2.2.2.2.2.1 rfl,
    h2.2.2.2.2.2 rfl⟩

/-- Claim C7: whenever the body decode rejects — whatever the value of the
ok flag, including non-ok responses — `safeFetch` returns the Exception
record with the normalized decode failure; it never returns a Failure from
an undecodable body, because the decode runs before the ok test. -/
theorem c7_decode_failure_is_exception
    (transport : FetchRequest → PromiseOutcome Response)
    (apiProps : APIProps) (method : String) (resp : Response) (e : JSVal)
    (hres : transport (buildRequest apiProps method) = .resolved resp)
    (hjson : resp.json = .rejected e) :
    safeFetch transport apiProps method =
      { data := JSVal.null, error := JSVal.null,
        exception := normalizeException e } ∧
    ExceptionShape (safeFetch transport apiProps method) := by
  constructor
  · simp [safeFetch, hres, hjson]
  · simp [ExceptionShape, safeFetch, hres, hjson, isError_normalizeException]

/-- Witness for claim C7: a non-ok response whose body decode rejects lands
in the Exception shape, not the Failure shape. -/
theorem c7_decode_failure_is_exception_witness :
    safeFetch
      (constTransport
        { ok := false, status := 500, json := .rejected (.err "bad json") })
      { url := "https://api.fake.com" } "GET" =
      { data := JSVal.null, error := JSVal.null,
        exception := JSVal.err "bad json" } := by
  have h := c7_decode_failure_is_exception
    (constTransport
      { ok := false, status := 500, json := .rejected (.err "bad json") })
    { url := "https://api.fake.com" } "GET" _ (.err "bad json") rfl rfl
  exact h.1.trans (by rfl)

/-- Claim C8 counterexample: the empty string is a supplied body payload,
yet both revisions send no body field for it — `body ? ... : undefined`
drops every falsy payload, so a supplied body is not always carried
through. -/
theorem c8_counterexample :
    (({ url := "https://api.fake.com", body := some (.str "") } :
        APIProps)).body = some (JSVal.str "") ∧
    (buildRequest { url := "https://api.fake.com", body := some (.str "") }
      "POST").body = none ∧
    (buildRequestDist
      { url := "https://api.fake.com", body := some (.str "") }
      "POST").body = none :=
  ⟨rfl, rfl, rfl⟩

/-- Claim C8 as amended: a supplied truthy body payload is carried through
to the transport call — as-is in src/index.ts, JSON-serialized in the dist
revision; when the body is absent or its payload is falsy, no body field is
sent. -/
theorem c8_amended_body_forwarding
    (apiProps : APIProps) (method : String) (b : JSVal) :
    (apiProps.body = none →
      (buildRequest apiProps method).body = none ∧
      (buildRequestDist apiProps method).body = none) ∧
    (apiProps.body = some b → truthy b = true →
      (buildRequest apiProps method).body = some b ∧
      (buildRequestDist apiProps method).body =
        some (JSVal.str (jsonStringify b))) ∧
    (apiProps.body = some b → truthy b = false →
      (buildRequest apiProps method).body = none ∧
      (buildRequestDist apiProps method).body = none) := by
  refine ⟨?_, ?_, ?_⟩
  · intro h
    simp [buildRequest, buildRequestDist, h]
  · intro h ht
    simp [buildRequest, buildRequestDist, h, ht]
  · intro h ht
    simp [buildRequest, buildRequestDist, h, ht]

/-- Witness for the amended claim C8: a non-empty string body is forwarded
as-is by the source revision and JSON-quoted by the dist revision. -/
theorem c8_amended_body_forwarding_witness :
    (buildRequest { url := "https://api.fake.com", body := some (.str "hi") }
      "POST").body = some (JSVal.str "hi") ∧
    (buildRequestDist
      { url := "https://api.fake.com", body := some (.str "hi") }
      "POST").body = some (JSVal.str (jsonStringify (.str "hi"))) :=
  (c8_amended_body_forwarding
    { url := "https://api.fake.com", body := some (.str "hi") } "POST"
    (.str "hi")).2.1 rfl rfl

/-- Claim C9: each method wrapper returns exactly the result of `safeFetch`
on the same request spec with its fixed method constant. -/
theorem c9_wrappers_delegate
    (transport : FetchRequest → PromiseOutcome Response) (props : APIProps) :
    get transport props = safeFetch transport props "GET" ∧
    post transport props = safeFetch transport props "POST" ∧
    put transport props = safeFetch transport props "PUT" ∧
    patch transport props = safeFetch transport props "PATCH" ∧
    del transport props = safeFetch transport props "DELETE" :=
  ⟨rfl, rfl, rfl, rfl, rfl⟩

/-- Claim C10: `safePromise` passes `null` through unchanged in both
directions, so a promise resolving with `null` and one rejecting with
`null` both produce the record with every field null — the two outcomes are
indistinguishable by the non-null test. -/
theorem c10_null_payload_indistinguishable :
    safePromise (.resolved JSVal.null) =
      { data := JSVal.null, error := JSVal.null } ∧
    safePromise (.rejected JSVal.null) =
      { data := JSVal.null, error := JSVal.null } ∧
    safePromise (.resolved JSVal.null) = safePromise (.rejected JSVal.null) ∧
    nonNullCountPR (safePromise (.resolved JSVal.null)) = 0 :=
  ⟨rfl, rfl, rfl, rfl⟩

end HonestFetch
